import Mathlib

/-!
Verification of the ATS (applicant-tracking-system) scoring engine and the
job-search orchestrator of this repository.

The definitions below are a shallow embedding of the JavaScript sources:

* `src/services/ats/atsScorer.js` (classes `ATSScorer` and `TextProcessor`),
* `src/services/ats/skillMatcher.js` (classes `SkillMatcher` and the config
  module `atsConfig`),
* the job-search controller (`processJobSearch` / `pollJobSearch`).

Modelling conventions:

* JS numbers are modelled as `ℚ` (all arithmetic in these files is exact
  decimal arithmetic: sums, products, divisions and `Math.round`).
* `Math.round x` is `⌊x + 1/2⌋` (JS rounds half toward +∞), see `jsRound`.
* JS `Set` (insertion-ordered, deduplicating) is modelled as a `List` built
  with `setInsert`; `Array.from` of such a set is the list itself.
* Absent (`undefined`/`null`) fields are `Option`; JS falsiness of strings
  (absent or `""`) is `strTruthy`, falsiness of numbers (`x || d` yields `d`
  for `x = 0`) is `jsOrQ`.
* Core `String.toLower`/`trim`/`splitOn` do not reduce in the kernel, so the
  file carries its own executable character-list versions (`strLower`,
  `jsTrim`, `splitSp`), each a direct model of the JS operation used.
-/

/-- Lowercase a string character-wise; models JS `String.prototype.toLowerCase`
on the ASCII data appearing in this code base. -/
def strLower (s : String) : String := ⟨s.data.map Char.toLower⟩

/-- The whitespace class of the JS regexes `\s` and of `String.prototype.trim`
(restricted to the ASCII whitespace characters). -/
def jsIsSpace (c : Char) : Bool :=
  c = ' ' || c = '\t' || c = '\n' || c = '\r' || c = '\x0b' || c = '\x0c'

/-- Models JS `String.prototype.trim`. -/
def jsTrim (s : String) : String :=
  ⟨((s.data.dropWhile jsIsSpace).reverse.dropWhile jsIsSpace).reverse⟩

/-- `leadsWith hay needle` is true when `needle` occurs at the very start of
`hay` (helper for substring search). -/
def leadsWith : List Char → List Char → Bool
  | _, [] => true
  | [], _ :: _ => false
  | a :: as, b :: bs => a = b && leadsWith as bs

/-- Substring scan: does `needle` occur anywhere in the list? -/
def subScan (needle : List Char) : List Char → Bool
  | [] => leadsWith [] needle
  | c :: t => leadsWith (c :: t) needle || subScan needle t

/-- Models JS `String.prototype.includes`. -/
def strIncludes (s sub : String) : Bool := subScan sub.data s.data

/-- JS string truthiness of an optional field: `undefined`, `null` and `""`
are falsy. -/
def strTruthy (o : Option String) : Bool :=
  match o with
  | none => false
  | some s => !s.data.isEmpty

/-- JS `a || d` for an optional string `a`: the first truthy (non-empty)
value, else `d`. -/
def jsOrStr (o : Option String) (d : String) : String :=
  match o with
  | none => d
  | some s => if s.data.isEmpty then d else s

/-- JS `x || d` for an optional number `x`: `undefined`, `null` and `0` are
falsy, so they yield `d`. -/
def jsOrQ (o : Option ℚ) (d : ℚ) : ℚ :=
  match o with
  | none => d
  | some q => if q = 0 then d else q

/-- JS `Math.round`: round half toward +∞. -/
def jsRound (q : ℚ) : ℤ := ⌊q + 1/2⌋

/-- The ubiquitous `Math.round(x * 100) / 100` (round to 2 decimals). -/
def round2 (q : ℚ) : ℚ := (jsRound (q * 100) : ℚ) / 100

/-- Decimal rendering of a JS number used inside template strings.  The
values interpolated by this code base are integers; non-integers are
rendered as exact fractions (the rendering never influences any score). -/
def numStr (q : ℚ) : String :=
  if q.den = 1 then toString q.num else toString q.num ++ "/" ++ toString q.den

/-- JS `Set.prototype.add` on an insertion-ordered, deduplicating set
modelled as a list. -/
def setInsert (l : List String) (x : String) : List String :=
  if l.contains x then l else l ++ [x]

/-- JS `new Set(list)`: deduplicate keeping first occurrences. -/
def setOfList (l : List String) : List String := l.foldl setInsert []

/-! ## TextProcessor (`src/services/ats/atsScorer.js`, second module) -/

/-- Character class kept by `cleanText`'s regex `[^a-z0-9\s\+\#\.]`. -/
def cleanKeep (c : Char) : Bool :=
  ('a' ≤ c && c ≤ 'z') || ('0' ≤ c && c ≤ '9') || jsIsSpace c ||
    c = '+' || c = '#' || c = '.'

/-- Collapse every maximal whitespace run to a single space,
JS `replace(/\s+/g, ' ')`. -/
def collapseWs (l : List Char) : List Char :=
  l.foldr
    (fun c acc =>
      if jsIsSpace c then
        match acc with
        | ' ' :: _ => acc
        | _ => ' ' :: acc
      else c :: acc)
    []

/-- `TextProcessor.cleanText`: lowercase, replace characters outside
`[a-z0-9\s+#.]` by spaces, collapse whitespace, trim. -/
def cleanText (text : String) : String :=
  if text.data.isEmpty then "" else
  let lowered := (strLower text).data
  let replaced := lowered.map (fun c => if cleanKeep c then c else ' ')
  jsTrim ⟨collapseWs replaced⟩

/-- `TextProcessor.STOPWORDS`. -/
def STOPWORDS : List String :=
  ["the", "a", "an", "and", "or", "but", "in", "on", "at", "to", "for",
   "of", "with", "by", "from", "as", "is", "was", "are", "were", "been",
   "be", "have", "has", "had", "do", "does", "did", "will", "would",
   "should", "could", "may", "might", "must", "can", "this", "that",
   "these", "those", "i", "you", "he", "she", "it", "we", "they",
   "what", "which", "who", "when", "where", "why", "how", "all", "each",
   "every", "both", "few", "more", "most", "other", "some", "such", "no",
   "not", "only", "own", "same", "so", "than", "too", "very", "just",
   "also", "now", "here", "there", "then", "once", "any", "about", "into",
   "through", "during", "before", "after", "above", "below", "between",
   "under", "again", "further", "while", "our", "your", "their", "its",
   "my", "his", "her", "am", "being", "having", "doing", "work", "working",
   "experience", "using", "used", "including", "include", "includes"]

/-- Split a character list on the single character `' '`,
JS `String.prototype.split(' ')`. -/
def splitSp : List Char → List (List Char)
  | [] => [[]]
  | c :: t =>
    match splitSp t with
    | [] => [[]]
    | w :: ws => if c = ' ' then [] :: w :: ws else (c :: w) :: ws

/-- `TextProcessor.extractKeywords`: clean, split on spaces, keep words of at
least `minLength` characters that are not stopwords.  Returns the word list
(duplicates preserved, as in the source). -/
def extractKeywords (text : String) (minLength : Nat := 2) : List String :=
  if text.data.isEmpty then [] else
  let cleaned := cleanText text
  let words := (splitSp cleaned.data).map (fun w => (⟨w⟩ : String))
  words.filter (fun word => minLength ≤ word.length && ! STOPWORDS.contains word)

/-- `TextProcessor.calculateKeywordOverlap`: `100·|K₁ ∩ K₂| / |K₂|`, `0` when
`K₂` is empty (`K₁`, `K₂` the deduplicated keyword sets). -/
def calculateKeywordOverlap (text1 text2 : String) : ℚ :=
  let keywords1 := setOfList (extractKeywords text1)
  let keywords2 := setOfList (extractKeywords text2)
  if keywords2.length = 0 then 0
  else ((keywords2.filter (fun k => keywords1.contains k)).length : ℚ) /
    (keywords2.length : ℚ) * 100

/-- `TextProcessor.calculateTextSimilarity`: Jaccard similarity of the keyword
sets, as a percentage. -/
def calculateTextSimilarity (text1 text2 : String) : ℚ :=
  if text1.data.isEmpty || text2.data.isEmpty then 0 else
  let keywords1 := setOfList (extractKeywords text1)
  let keywords2 := setOfList (extractKeywords text2)
  if keywords1.length = 0 || keywords2.length = 0 then 0 else
  let intersection := (keywords1.filter (fun k => keywords2.contains k)).length
  let union := (setOfList (keywords1 ++ keywords2)).length
  if union > 0 then (intersection : ℚ) / (union : ℚ) * 100 else 0

/-- `TextProcessor.SKILL_MAP`. -/
def SKILL_MAP : List (String × String) :=
  [("js", "javascript"),
   ("ts", "typescript"),
   ("py", "python"),
   ("k8s", "kubernetes"),
   ("aws", "amazon web services"),
   ("gcp", "google cloud platform"),
   ("ml", "machine learning"),
   ("ai", "artificial intelligence"),
   ("ci/cd", "continuous integration continuous deployment"),
   ("api", "application programming interface")]

/-- `TextProcessor.normalizeSkill`: lowercase, trim, then map through
`SKILL_MAP` (falling back to the input). -/
def normalizeSkill (skill : String) : String :=
  if skill.data.isEmpty then "" else
  let normalized := jsTrim (strLower skill)
  ( SKILL_MAP.lookup normalized).getD normalized

/-! ### `TextProcessor.extractTechnicalTerms`

The source applies four global regexes (`\b[A-Z]{2,}\b`, `\b\w+\.\w+\b`,
`\b\w+\+\+\b`, `\b\w+#\b`) to the raw text and collects the lowercased
matches in one insertion-ordered set.  We model the text as a token stream of
maximal `\w`-runs and single non-word characters; each scan below reproduces
the corresponding regex (including its word-boundary anchors and the fact
that scanning resumes after each match). -/

/-- The JS `\w` class `[A-Za-z0-9_]`. -/
def isWordChar (c : Char) : Bool :=
  ('a' ≤ c && c ≤ 'z') || ('A' ≤ c && c ≤ 'Z') || ('0' ≤ c && c ≤ '9') || c = '_'

/-- A token of the regex scans: a maximal run of word characters, or a single
other character. -/
inductive RTok where
  | word (cs : List Char)
  | sym (c : Char)
deriving DecidableEq

/-- Split a character list into maximal word-character runs and single other
characters. -/
def tokenize : List Char → List RTok
  | [] => []
  | c :: rest =>
    if isWordChar c then
      match tokenize rest with
      | RTok.word w :: ts => RTok.word (c :: w) :: ts
      | ts => RTok.word [c] :: ts
    else RTok.sym c :: tokenize rest

def isUpperAlpha (c : Char) : Bool := 'A' ≤ c && c ≤ 'Z'

/-- `\b[A-Z]{2,}\b`: a whole word-run of at least two uppercase letters.
(A run containing any other word character has no inner boundary, so it
cannot match.) -/
def acronymScan : List RTok → List (List Char)
  | [] => []
  | RTok.word w :: ts =>
    if 2 ≤ w.length && w.all isUpperAlpha then w :: acronymScan ts
    else acronymScan ts
  | RTok.sym _ :: ts => acronymScan ts

/-- `\b\w+\.\w+\b`: word-run, literal dot, word-run; scanning resumes after
the second run (so `a.b.c` yields only `a.b`). -/
def dottedScan : List RTok → List (List Char)
  | RTok.word a :: RTok.sym '.' :: RTok.word b :: ts =>
    (a ++ '.' :: b) :: dottedScan ts
  | _ :: ts => dottedScan ts
  | [] => []

/-- `\b\w+\+\+\b`: word-run then `++`; the trailing `\b` holds only when a
word character follows the second `+` (a `+` is not a word character), and
scanning resumes at that following run. -/
def plusScan : List RTok → List (List Char)
  | RTok.word w :: RTok.sym '+' :: RTok.sym '+' :: RTok.word b :: ts =>
    (w ++ ['+', '+']) :: plusScan (RTok.word b :: ts)
  | _ :: ts => plusScan ts
  | [] => []

/-- `\b\w+#\b`: word-run then `#`, again requiring a word character right
after the `#`. -/
def hashScan : List RTok → List (List Char)
  | RTok.word w :: RTok.sym '#' :: RTok.word b :: ts =>
    (w ++ ['#']) :: hashScan (RTok.word b :: ts)
  | _ :: ts => hashScan ts
  | [] => []

/-- `TextProcessor.extractTechnicalTerms`. -/
def extractTechnicalTerms (text : String) : List String :=
  if text.data.isEmpty then [] else
  let toks := tokenize text.data
  let raw := acronymScan toks ++ dottedScan toks ++ plusScan toks ++ hashScan toks
  setOfList (raw.map (fun cs => (⟨cs.map Char.toLower⟩ : String)))

/-! ## SkillMatcher (`src/services/ats/skillMatcher.js`) -/

/-- `SkillMatcher.skillSynonyms` (constructor table). -/
def skillSynonyms : List (String × List String) :=
  [("javascript", ["js", "ecmascript", "node.js", "nodejs"]),
   ("typescript", ["ts"]),
   ("python", ["py"]),
   ("kubernetes", ["k8s"]),
   ("docker", ["containerization", "containers"]),
   ("aws", ["amazon web services", "amazon cloud"]),
   ("gcp", ["google cloud platform", "google cloud"]),
   ("azure", ["microsoft azure"]),
   ("postgresql", ["postgres", "psql"]),
   ("mongodb", ["mongo"]),
   ("react", ["reactjs", "react.js"]),
   ("angular", ["angularjs", "angular.js"]),
   ("vue", ["vuejs", "vue.js"]),
   ("machine learning", ["ml", "deep learning", "neural networks"]),
   ("artificial intelligence", ["ai"]),
   ("continuous integration", ["ci", "ci/cd"]),
   ("continuous deployment", ["cd", "ci/cd"]),
   ("node", ["nodejs", "node.js"]),
   ("express", ["expressjs", "express.js"]),
   ("next", ["nextjs", "next.js"]),
   ("mysql", ["sql"]),
   ("sql server", ["mssql"]),
   ("restful", ["rest", "rest api"]),
   ("graphql", ["gql"])]

/-- `SkillMatcher.normalizeSkills`: normalize each (truthy) skill, insert it
and all of its synonyms into an insertion-ordered set. -/
def normalizeSkills (skills : List String) : List String :=
  skills.foldl
    (fun normalized skill =>
      if skill.data.isEmpty then normalized
      else
        let normSkill := normalizeSkill skill
        let normalized := setInsert normalized normSkill
        match skillSynonyms.lookup normSkill with
        | some syns => syns.foldl setInsert normalized
        | none => normalized)
    []

/-- The `for (const skill of normJob)` loop of `matchSkillsWithSynonyms`:
each normalized job skill goes into `matched` or `missing` according to
membership in the normalized resume set. -/
def matchLoop (normResume : List String) :
    List String → List String × List String → List String × List String
  | [], acc => acc
  | skill :: rest, (matched, missing) =>
    if normResume.contains skill then
      matchLoop normResume rest (setInsert matched skill, missing)
    else
      matchLoop normResume rest (matched, setInsert missing skill)

structure MatchWithSynonymsResult where
  matched : List String
  missing : List String
  matchPct : ℚ

/-- `SkillMatcher.matchSkillsWithSynonyms`.  Empty (or absent) resume or job
lists short-circuit to no matches with `missing = new Set(jobSkills)` — note
the raw, un-normalized job skills in that case. -/
def matchSkillsWithSynonyms (resumeSkills jobSkills : List String) :
    MatchWithSynonymsResult :=
  if resumeSkills.isEmpty || jobSkills.isEmpty then
    { matched := [], missing := setOfList jobSkills, matchPct := 0 }
  else
    let normResume := normalizeSkills resumeSkills
    let normJob := normalizeSkills jobSkills
    let mm := matchLoop normResume normJob ([], [])
    let matchPct : ℚ :=
      if 0 < normJob.length then (mm.1.length : ℚ) / (normJob.length : ℚ) else 0
    { matched := mm.1, missing := mm.2, matchPct }

structure SkillAnalysis where
  matchedRequired : List String
  matchedPreferred : List String
  missingRequired : List String
  missingPreferred : List String
  requiredMatchPercentage : ℚ
  preferredMatchPercentage : ℚ
  overallSkillScore : ℚ
  totalMatched : Nat
  totalMissing : Nat

/-- `SkillMatcher.matchSkills`: required and preferred matching plus the
70/30 overall score, percentages rounded to 2 decimals. -/
def matchSkills (resumeSkills requiredSkills : List String)
    (preferredSkills : List String := []) : SkillAnalysis :=
  let r := matchSkillsWithSynonyms resumeSkills requiredSkills
  let p := matchSkillsWithSynonyms resumeSkills preferredSkills
  let requiredMatchPercentage := r.matchPct * 100
  let preferredMatchPercentage := p.matchPct * 100
  let overallScore := requiredMatchPercentage * 0.7 + preferredMatchPercentage * 0.3
  { matchedRequired := r.matched
    matchedPreferred := p.matched
    missingRequired := r.missing
    missingPreferred := p.missing
    requiredMatchPercentage := round2 requiredMatchPercentage
    preferredMatchPercentage := round2 preferredMatchPercentage
    overallSkillScore := round2 overallScore
    totalMatched := r.matched.length + p.matched.length
    totalMissing := r.missing.length + p.missing.length }

/-- `SkillMatcher.techKeywords` (constructor set; insertion order kept). -/
def techKeywords : List String :=
  ["python", "java", "javascript", "typescript", "c++", "c#", "c", "ruby",
   "php", "go", "golang", "rust", "swift", "kotlin", "scala", "perl", "r",
   "matlab", "julia", "dart", "elixir", "haskell", "clojure", "objective-c",
   "groovy", "lua", "shell", "bash", "powershell", "vba", "cobol", "fortran",
   "react", "reactjs", "react.js", "angular", "angularjs", "vue", "vuejs",
   "vue.js", "svelte", "next.js", "nextjs", "nuxt", "gatsby", "ember",
   "backbone", "jquery", "bootstrap", "tailwind", "material-ui", "mui",
   "ant design", "chakra ui", "sass", "scss", "less", "styled-components",
   "emotion", "redux", "mobx", "recoil", "zustand", "webpack", "vite",
   "rollup", "parcel", "babel", "eslint", "prettier", "jest", "cypress",
   "playwright", "selenium", "webdriver", "storybook",
   "node", "nodejs", "node.js", "express", "expressjs", "nestjs", "fastify",
   "koa", "django", "flask", "fastapi", "pyramid", "tornado", "spring",
   "spring boot", "springboot", "hibernate", "struts", "jsf", "play",
   "laravel", "symfony", "codeigniter", "yii", "rails", "ruby on rails",
   "sinatra", "asp.net", ".net", "dotnet", ".net core", "entity framework",
   "gin", "echo", "beego", "fiber", "actix", "rocket", "warp",
   "react native", "flutter", "ionic", "xamarin", "cordova", "phonegap",
   "android", "ios", "swift ui", "jetpack compose", "kotlin multiplatform",
   "sql", "mysql", "postgresql", "postgres", "oracle", "sql server", "mssql",
   "sqlite", "mariadb", "db2", "teradata", "snowflake", "redshift",
   "bigquery", "aurora", "cockroachdb",
   "nosql", "mongodb", "cassandra", "couchdb", "dynamodb", "neo4j",
   "redis", "memcached", "elasticsearch", "solr", "firebase", "firestore",
   "realm", "couchbase", "hbase", "riak",
   "aws", "amazon web services", "ec2", "s3", "lambda", "cloudformation",
   "cloudfront", "route53", "rds", "sqs", "sns", "kinesis",
   "azure", "microsoft azure", "azure devops", "gcp", "google cloud",
   "google cloud platform", "heroku", "digitalocean", "linode",
   "vultr", "cloudflare", "vercel", "netlify", "render",
   "docker", "kubernetes", "k8s", "openshift", "rancher", "helm", "istio",
   "jenkins", "gitlab ci", "github actions", "circleci", "travis ci",
   "teamcity", "bamboo", "azure pipelines", "argo cd", "flux", "spinnaker",
   "terraform", "ansible", "puppet", "chef", "saltstack", "vagrant",
   "packer", "consul", "vault", "prometheus", "grafana", "datadog",
   "new relic", "splunk", "elk stack", "logstash", "kibana", "fluentd",
   "git", "github", "gitlab", "bitbucket", "svn", "mercurial", "perforce",
   "git flow", "trunk based development",
   "junit", "testng", "mockito", "pytest", "unittest", "nose", "jest",
   "mocha", "jasmine", "karma", "protractor", "cucumber", "behave", "rspec",
   "xunit", "nunit", "mstest", "postman", "insomnia", "jmeter", "gatling",
   "locust", "k6",
   "kafka", "rabbitmq", "activemq", "zeromq", "nats", "pulsar", "mqtt",
   "redis pub/sub", "amazon sqs", "google pub/sub", "azure service bus",
   "rest", "restful", "graphql", "grpc", "soap", "websocket",
   "http", "https", "tcp", "udp", "oauth", "jwt", "saml", "openid",
   "microservices", "monolith", "serverless", "event driven", "cqrs",
   "event sourcing", "domain driven design", "ddd", "clean architecture",
   "hexagonal architecture", "mvc", "mvvm", "mvp", "soa", "rest api",
   "machine learning", "ml", "deep learning", "neural networks", "cnn",
   "rnn", "lstm", "gru", "transformer", "bert", "gpt", "llm", "nlp",
   "computer vision", "opencv", "tensorflow", "pytorch", "keras",
   "scikit-learn", "sklearn", "xgboost", "lightgbm", "catboost",
   "pandas", "numpy", "scipy", "matplotlib", "seaborn", "plotly",
   "hugging face", "langchain", "llama", "stable diffusion", "yolo",
   "hadoop", "spark", "pyspark", "hive", "pig", "sqoop", "flume",
   "airflow", "luigi", "prefect", "dagster", "dbt", "databricks",
   "presto", "trino", "flink", "storm", "samza", "beam", "dataflow",
   "linux", "unix", "ubuntu", "centos", "rhel", "debian", "fedora",
   "windows", "macos", "vim", "emacs", "vscode",
   "intellij", "eclipse", "netbeans", "pycharm", "webstorm",
   "agile", "scrum", "kanban", "lean", "devops", "ci/cd", "tdd",
   "test driven development", "bdd", "behavior driven development",
   "pair programming", "code review", "solid", "design patterns",
   "webscraping", "web scraping", "beautifulsoup", "scrapy",
   "nginx", "apache", "tomcat", "iis", "load balancing", "caching",
   "cdn", "oauth2", "authentication", "authorization", "encryption",
   "ssl", "tls", "vpn", "api gateway", "service mesh", "etl",
   "data warehouse", "data lake", "olap", "oltp", "indexing",
   "sharding", "replication", "partitioning", "normalization"]

/-- `SkillMatcher.extractSkillsFromText`: technical terms plus keywords,
filtered to known technology names. -/
def extractSkillsFromText (text : String) : List String :=
  if text.data.isEmpty then [] else
  let technicalTerms := extractTechnicalTerms text
  let keywords := extractKeywords text
  let allTerms := setOfList (technicalTerms ++ keywords)
  allTerms.filter (fun term => techKeywords.contains (strLower term))

/-! ## Scoring configuration (`atsConfig` module of `skillMatcher.js`) -/

structure Weights where
  skills : ℚ
  experience : ℚ
  projects : ℚ
  keywords : ℚ
  summary : ℚ
  education : ℚ
deriving DecidableEq

def SOFTWARE_ENGINEER : Weights :=
  { skills := 0.35, experience := 0.30, projects := 0.15,
    keywords := 0.10, summary := 0.05, education := 0.05 }

def FRESHER_INTERN : Weights :=
  { skills := 0.30, projects := 0.25, education := 0.20,
    keywords := 0.10, summary := 0.10, experience := 0.05 }

def MANAGER_LEAD : Weights :=
  { experience := 0.40, keywords := 0.20, skills := 0.20,
    summary := 0.10, education := 0.10, projects := 0.00 }

def DEFAULT : Weights :=
  { skills := 0.35, experience := 0.30, projects := 0.15,
    keywords := 0.10, summary := 0.05, education := 0.05 }

/-- The lookup table of `ATSWeights.getWeights`. -/
def weightsMap : List (String × Weights) :=
  [("software_engineer", SOFTWARE_ENGINEER),
   ("developer", SOFTWARE_ENGINEER),
   ("engineer", SOFTWARE_ENGINEER),
   ("fresher", FRESHER_INTERN),
   ("intern", FRESHER_INTERN),
   ("entry_level", FRESHER_INTERN),
   ("manager", MANAGER_LEAD),
   ("lead", MANAGER_LEAD),
   ("senior", SOFTWARE_ENGINEER),
   ("default", DEFAULT)]

/-- `ATSWeights.getWeights`: case-insensitive lookup, falling back to
`DEFAULT` (also when `roleType` is absent). -/
def getWeights (roleType : Option String) : Weights :=
  ((roleType.map strLower).bind (fun k => weightsMap.lookup k)).getD DEFAULT

/-- `HardFilterThresholds.MIN_EXPERIENCE_MATCH_RATIO`. -/
def MIN_EXPERIENCE_MATCH_RATIO : ℚ := 0.8

/-- `HardFilterThresholds.WORK_AUTH_KEYWORDS`. -/
def WORK_AUTH_KEYWORDS : List String :=
  ["citizen", "authorized", "visa", "green card",
   "work permit", "eligible to work", "authorized to work"]

/-- `DEGREE_LEVELS`, in declaration order (object key order in JS). -/
def DEGREE_LEVELS : List (String × Nat) :=
  [("high school", 1),
   ("diploma", 2),
   ("associate", 2),
   ("bachelor", 3),
   ("bachelors", 3),
   ("b.tech", 3),
   ("b.e", 3),
   ("bsc", 3),
   ("bca", 3),
   ("master", 4),
   ("masters", 4),
   ("m.tech", 4),
   ("msc", 4),
   ("mca", 4),
   ("mba", 4),
   ("phd", 5),
   ("doctorate", 5)]

/-! ## ATSScorer (`src/services/ats/atsScorer.js`) -/

/-- An entry of `resume.education`: the source accepts either a plain string
or an object carrying a `degree` field
(`typeof edu === 'string' ? edu : edu.degree || ''`). -/
inductive EduEntry where
  | str (s : String)
  | obj (degree : Option String)
deriving DecidableEq

/-- The text the education check reads from an entry. -/
def eduText : EduEntry → String
  | EduEntry.str s => s
  | EduEntry.obj degree => jsOrStr degree ""

/-- Resume input of the scorer (fields may be absent, as in JS). -/
structure Resume where
  skills : Option (List String) := none
  workExperience : Option (List String) := none
  projects : Option (List String) := none
  summary : Option String := none
  yearsOfExperience : Option ℚ := none
  highestDegree : Option String := none
  education : Option (List EduEntry) := none
  workAuthorization : Option String := none
  certifications : Option (List String) := none

/-- Job-description input of the scorer. -/
structure Job where
  description : Option String := none
  jobDescription : Option String := none
  requiredSkills : Option (List String) := none
  preferredSkills : Option (List String) := none
  minExperience : Option ℚ := none
  maxExperience : Option ℚ := none
  requiredEducation : Option String := none
  roleType : Option String := none

/-- `jobDescription.description || jobDescription.jobDescription || ''`. -/
def descText (j : Job) : String := jsOrStr j.description (jsOrStr j.jobDescription "")

/-- `ATSScorer._checkWorkAuthorization`. -/
def checkWorkAuthorization (resumeWorkAuth : Option String)
    (jobDescriptionText : String) : Bool :=
  let jobRequiresAuth :=
    WORK_AUTH_KEYWORDS.any (fun keyword => strIncludes (strLower jobDescriptionText) keyword)
  if !jobRequiresAuth then true
  else if ! strTruthy resumeWorkAuth then false
  else WORK_AUTH_KEYWORDS.any
    (fun keyword => strIncludes (strLower (jsOrStr resumeWorkAuth "")) keyword)

/-- `ATSScorer._checkExperience` (the unused `maxRequired` parameter of the
source is kept). -/
def checkExperience (resumeExperience minRequired : ℚ)
    (maxRequired : Option ℚ := none) : Bool :=
  if minRequired ≤ 1 then true
  else
    let minThreshold := minRequired * MIN_EXPERIENCE_MATCH_RATIO
    if resumeExperience < minThreshold then false else true

/-- First-match degree-level lookup of the required-education text. -/
def firstDegreeLevel (s : String) : Nat :=
  match DEGREE_LEVELS.find? (fun dl => strIncludes s dl.1) with
  | some dl => dl.2
  | none => 0

/-- Max-accumulating degree-level scan of a candidate text. -/
def maxDegreeLevel (s : String) (start : Nat) : Nat :=
  DEGREE_LEVELS.foldl (fun acc dl => if strIncludes s dl.1 then max acc dl.2 else acc) start

/-- `ATSScorer._checkEducation`. -/
def checkEducation (highestDegree : Option String) (educationList : List EduEntry)
    (requiredEducation : Option String) : Bool :=
  if ! strTruthy requiredEducation then true
  else if ! strTruthy highestDegree && educationList.isEmpty then false
  else
    let reqLower := strLower (jsOrStr requiredEducation "")
    let requiredLevel := firstDegreeLevel reqLower
    if requiredLevel = 0 then true
    else
      let candidateLevel :=
        match highestDegree with
        | some hd => if hd.data.isEmpty then 0 else maxDegreeLevel (strLower hd) 0
        | none => 0
      let candidateLevel := educationList.foldl
        (fun acc edu => maxDegreeLevel (strLower (eduText edu)) acc) candidateLevel
      decide (requiredLevel ≤ candidateLevel)

structure HardFilterResult where
  passed : Bool
  locationMatch : Bool
  workAuthorizationMatch : Bool
  experienceMatch : Bool
  educationMatch : Bool
  failureReasons : List String
deriving DecidableEq

/-- Rendering of a possibly-absent number inside a JS template string
(`undefined` prints as the string `undefined`). -/
def optQStr (o : Option ℚ) : String :=
  match o with
  | none => "undefined"
  | some q => numStr q

/-- Rendering of a possibly-absent string inside a JS template string. -/
def optSStr (o : Option String) : String :=
  match o with
  | none => "undefined"
  | some s => s

/-- `ATSScorer._evaluateHardFilters`: the four boolean gates (location is
disabled and always passes) plus the collected failure reasons, in push
order. -/
def evaluateHardFilters (resume : Resume) (jobDescription : Job) : HardFilterResult :=
  let locationMatch := true
  let workAuthMatch :=
    checkWorkAuthorization resume.workAuthorization (descText jobDescription)
  let experienceMatch :=
    checkExperience (jsOrQ resume.yearsOfExperience 0)
      (jsOrQ jobDescription.minExperience 0) jobDescription.maxExperience
  let educationMatch :=
    checkEducation resume.highestDegree (resume.education.getD [])
      jobDescription.requiredEducation
  let failureReasons :=
    (if !workAuthMatch then ["Work authorization requirement not clearly stated"] else []) ++
    (if !experienceMatch then
      ["Experience requirement not met: Requires " ++ optQStr jobDescription.minExperience ++
        "+ years, resume shows " ++ numStr (jsOrQ resume.yearsOfExperience 0) ++ " years"]
     else []) ++
    (if !educationMatch then
      ["Education requirement not met: " ++ optSStr jobDescription.requiredEducation]
     else [])
  { passed := locationMatch && workAuthMatch && experienceMatch && educationMatch,
    locationMatch, workAuthorizationMatch := workAuthMatch,
    experienceMatch, educationMatch, failureReasons }

/-- JS `Array.prototype.join(' ')`. -/
def joinSp (l : List String) : String := String.intercalate " " l

/-- `ATSScorer._scoreSkills`. -/
def scoreSkills (resume : Resume) (jobDescription : Job) : ℚ :=
  (matchSkills (resume.skills.getD []) (jobDescription.requiredSkills.getD [])
    (jobDescription.preferredSkills.getD [])).overallSkillScore

/-- `ATSScorer._scoreExperience`. -/
def scoreExperience (resume : Resume) (jobDescription : Job) : ℚ :=
  let minExp := max (jsOrQ jobDescription.minExperience 1) 1
  let expRatio := jsOrQ resume.yearsOfExperience 0 / minExp
  let expScore := min (expRatio * 100) 100
  let score := expScore * 0.4
  let combinedExperience := joinSp (resume.workExperience.getD [])
  let jobDesc := descText jobDescription
  let relevance := calculateTextSimilarity combinedExperience jobDesc
  min (score + relevance * 0.6) 100

/-- `ATSScorer._scoreProjects`. -/
def scoreProjects (resume : Resume) (jobDescription : Job) : ℚ :=
  match resume.projects with
  | none => 0
  | some projects =>
    if projects.isEmpty then 0
    else
      let relevance := calculateTextSimilarity (joinSp projects) (descText jobDescription)
      let projectBonus := min ((projects.length : ℚ) * 5) 20
      min (relevance + projectBonus) 100

/-- `ATSScorer._scoreKeywords`. -/
def scoreKeywords (resume : Resume) (jobDescription : Job) : ℚ :=
  let resumeText := joinSp
    [joinSp (resume.skills.getD []), joinSp (resume.workExperience.getD []),
     joinSp (resume.projects.getD []), jsOrStr resume.summary ""]
  let jobDesc := descText jobDescription
  min (calculateKeywordOverlap resumeText jobDesc) 100

/-- `ATSScorer._scoreSummary`. -/
def scoreSummary (resume : Resume) (jobDescription : Job) : ℚ :=
  if ! strTruthy resume.summary then 50
  else calculateTextSimilarity (jsOrStr resume.summary "") (descText jobDescription)

/-- `ATSScorer._scoreEducation`: `100` without a required-education text;
`0` when the `education` field is absent and there is no (truthy) highest
degree; `100` when the Stage-1 education check passes; else `50`. -/
def scoreEducation (resume : Resume) (jobDescription : Job) : ℚ :=
  if ! strTruthy jobDescription.requiredEducation then 100
  else if resume.education.isNone && ! strTruthy resume.highestDegree then 0
  else if checkEducation resume.highestDegree (resume.education.getD [])
      jobDescription.requiredEducation then 100
  else 50

structure RelevanceScore where
  skillsScore : ℚ
  experienceScore : ℚ
  projectsScore : ℚ
  keywordsScore : ℚ
  summaryScore : ℚ
  educationScore : ℚ
  weightedTotal : ℚ
  weightsUsed : Weights
deriving DecidableEq

/-- The weighted sum producing `weightedTotal` in
`ATSScorer._calculateRelevanceScore`, rounded to 2 decimals. -/
def weightedTotalOf (weights : Weights)
    (skillsScore experienceScore projectsScore keywordsScore summaryScore educationScore : ℚ) : ℚ :=
  round2 (skillsScore * weights.skills + experienceScore * weights.experience +
    projectsScore * weights.projects + keywordsScore * weights.keywords +
    summaryScore * weights.summary + educationScore * weights.education)

/-- `ATSScorer._calculateRelevanceScore`: custom weights (if given) or the
role-based weights; six sub-scores; the weighted total is computed from the
raw sub-scores and every reported number is rounded to 2 decimals. -/
def calculateRelevanceScore (resume : Resume) (jobDescription : Job)
    (customWeights : Option Weights := none) : RelevanceScore :=
  let weights := customWeights.getD (getWeights jobDescription.roleType)
  let skillsScore := scoreSkills resume jobDescription
  let experienceScore := scoreExperience resume jobDescription
  let projectsScore := scoreProjects resume jobDescription
  let keywordsScore := scoreKeywords resume jobDescription
  let summaryScore := scoreSummary resume jobDescription
  let educationScore := scoreEducation resume jobDescription
  { skillsScore := round2 skillsScore,
    experienceScore := round2 experienceScore,
    projectsScore := round2 projectsScore,
    keywordsScore := round2 keywordsScore,
    summaryScore := round2 summaryScore,
    educationScore := round2 educationScore,
    weightedTotal := weightedTotalOf weights skillsScore experienceScore
      projectsScore keywordsScore summaryScore educationScore,
    weightsUsed := weights }

/-- JS `Number.prototype.toFixed(0)` on the non-negative scores appearing
here: round to the nearest integer and print. -/
def toFixed0 (q : ℚ) : String := toString (jsRound q)

/-- `ATSScorer._generateFeedback`.  When the hard filters failed, the
feedback is the failure-reason list joined (with `', '`) into one message;
otherwise a band keyed by `weightedTotal` plus specific call-outs.  (The
leading glyphs of the band strings are copied byte-for-byte from the
source.) -/
def generateFeedback (hardFilters : HardFilterResult)
    (relevanceScore : Option RelevanceScore) (skillAnalysis : SkillAnalysis) : String :=
  if !hardFilters.passed then
    "Resume did not pass initial screening. Issues: " ++
      String.intercalate ", " hardFilters.failureReasons
  else
    match relevanceScore with
    | none => "Unable to calculate relevance score."
    | some rs =>
      let fb :=
        if 80 ≤ rs.weightedTotal then
          "üéØ Excellent match! Your profile aligns very well with the job requirements. "
        else if 60 ≤ rs.weightedTotal then
          "‚úÖ Good match! You meet most of the requirements with room for improvement. "
        else if 40 ≤ rs.weightedTotal then
          "‚ö†Ô∏è Moderate match. Consider strengthening key areas to improve your chances. "
        else
          "‚ùå Limited match. Significant gaps exist between your profile and requirements. "
      let fb := fb ++
        (if rs.skillsScore < 70 then
          "Your skills match score is " ++ toFixed0 rs.skillsScore ++ "%. " else "")
      let fb := fb ++
        (if 0 < skillAnalysis.totalMissing then
          "You\x27re missing " ++ toString skillAnalysis.totalMissing ++
            " required/preferred skills. " else "")
      let fb := fb ++
        (if rs.experienceScore < 70 then
          "Consider highlighting more relevant experience. " else "")
      fb

/-- `ATSScorer._generateRecommendations` (ordered, capped at 5). -/
def generateRecommendations (skillAnalysis : SkillAnalysis)
    (relevanceScore : Option RelevanceScore) (resume : Resume)
    (jobDescription : Job) : List String :=
  let recommendations :=
    (if !skillAnalysis.missingRequired.isEmpty then
      ["üéØ Acquire or highlight these critical skills: " ++
        String.intercalate ", " (skillAnalysis.missingRequired.take 3)]
     else []) ++
    (match relevanceScore with
     | some rs =>
       (if rs.experienceScore < 70 then
         ["üìù Emphasize experience more relevant to this role in your resume"] else []) ++
       (if rs.projectsScore < 50 ∧ jobDescription.roleType ≠ some "manager" then
         ["üíº Add relevant projects that demonstrate required skills"] else []) ++
       (if rs.keywordsScore < 60 then
         ["üîë Include more industry-specific keywords from the job description"] else []) ++
       (if strTruthy resume.summary = false ∨ rs.summaryScore < 50 then
         ["‚úçÔ∏è Write or improve your professional summary to align with this role"] else [])
     | none => []) ++
    (if (resume.certifications.getD []).isEmpty ∧ !skillAnalysis.missingRequired.isEmpty then
      ["üèÖ Consider getting certifications in missing skill areas"] else [])
  recommendations.take 5

structure AnalysisResult where
  hardFilters : HardFilterResult
  relevanceScore : Option RelevanceScore
  overallMatchPercentage : ℚ
  matchedSkills : List String
  missingSkills : List String
  skillAnalysis : SkillAnalysis
  feedback : String
  recommendations : List String
  analysisTimestamp : String
  roleType : String

/-- `ATSScorer.analyze`.  The wall-clock reading `new Date().toISOString()`
is the explicit parameter `now` (the only impure input of the function). -/
def analyze (resume : Resume) (jobDescription : Job)
    (customWeights : Option Weights := none) (now : String := "") : AnalysisResult :=
  let hardFilters := evaluateHardFilters resume jobDescription
  let stage2 : Option RelevanceScore :=
    if hardFilters.passed then
      some (calculateRelevanceScore resume jobDescription customWeights)
    else none
  let overallMatch : ℚ :=
    match stage2 with
    | some rs => rs.weightedTotal
    | none => 0
  let skillAnalysis := matchSkills (resume.skills.getD [])
    (jobDescription.requiredSkills.getD []) (jobDescription.preferredSkills.getD [])
  let feedback := generateFeedback hardFilters stage2 skillAnalysis
  let recommendations := generateRecommendations skillAnalysis stage2 resume jobDescription
  { hardFilters,
    relevanceScore := stage2,
    overallMatchPercentage := round2 overallMatch,
    matchedSkills := skillAnalysis.matchedRequired,
    missingSkills := skillAnalysis.missingRequired,
    skillAnalysis, feedback, recommendations,
    analysisTimestamp := now,
    roleType := jsOrStr jobDescription.roleType "default" }

/-- Replace the timestamp field by a fixed value (to compare two analysis
results up to their timestamps). -/
def eraseTimestamp (a : AnalysisResult) : AnalysisResult :=
  { a with analysisTimestamp := "" }

structure QuickScoreResult where
  score : ℚ
  matchedSkills : List String
  missingSkills : List String
  skillMatchPercentage : ℚ
  keywordMatchPercentage : ℚ
deriving DecidableEq

/-- `ATSScorer.quickScore`: no hard filters; job skills come from the
structured list when the field is present (a present empty array is truthy
in JS and is used as-is), otherwise from free-text extraction over the job
description; `score = 0.6·overallSkillScore + 0.4·keywordOverlap`. -/
def quickScore (resume : Resume) (job : Job) : QuickScoreResult :=
  let jobSkills :=
    match job.requiredSkills with
    | some l => l
    | none => extractSkillsFromText (descText job)
  let resumeSkills := resume.skills.getD []
  let skillAnalysis := matchSkills resumeSkills jobSkills []
  let resumeText := joinSp
    [joinSp resumeSkills, joinSp (resume.workExperience.getD []), jsOrStr resume.summary ""]
  let jobDesc := descText job
  let keywordMatch := calculateKeywordOverlap resumeText jobDesc
  let qs := skillAnalysis.overallSkillScore * 0.6 + keywordMatch * 0.4
  { score := round2 qs,
    matchedSkills := skillAnalysis.matchedRequired,
    missingSkills := skillAnalysis.missingRequired,
    skillMatchPercentage := skillAnalysis.requiredMatchPercentage,
    keywordMatchPercentage := round2 keywordMatch }

/-! ## Job-search orchestrator (job search controller, `processJobSearch`)

External collaborators (the JSearch provider, the Mongo user/quota reads and
the HTTP call to the ATS analyzer inside `analyzeJobWithATS`) enter the model
through `SearchEnv`.  The per-task `setTimeout(…, 5*60*1000)` purge is
recorded in the final task state as `cleanupDelayMs` (`some d` exactly when a
deletion of the task from `jobSearchTasks` was scheduled, `d` milliseconds
ahead). -/

/-- A job posting as handed over by the search provider (the fields the
controller reads; the rest of the JS object is spread through unchanged). -/
structure JobItem where
  title : Option String := none
  company : Option String := none
  description : Option String := none
  experience : Option String := none
deriving DecidableEq

/-- Response body of the external ATS-analysis HTTP endpoint. -/
structure AtsResponse where
  overall_match_percentage : Option ℚ := none
  matched_skills : Option (List String) := none
  missing_skills : Option (List String) := none
  feedback : Option (List String) := none
  recommendations : Option (List String) := none
  hard_filters : Option String := none
deriving DecidableEq

/-- The `atsAnalysis` record the controller attaches to a job. -/
structure AtsSummary where
  overall_match_percentage : Option ℚ
  matched_skills : List String
  missing_skills : List String
  feedback : List String
  recommendations : List String
  hard_filters : Option String
deriving DecidableEq

def mkAtsSummary (a : AtsResponse) : AtsSummary :=
  { overall_match_percentage := a.overall_match_percentage,
    matched_skills := a.matched_skills.getD [],
    missing_skills := a.missing_skills.getD [],
    feedback := a.feedback.getD [],
    recommendations := a.recommendations.getD [],
    hard_filters := a.hard_filters }

/-- A job together with its (possibly absent) score, as accumulated in
`task.jobs` on the analysis path. -/
structure ScoredJob where
  job : JobItem
  atsScore : Option ℚ
  atsAnalysis : Option AtsSummary
deriving DecidableEq

/-- `analyzeJobWithATS`: the HTTP call is `atsCall`; every failure is caught
inside the function and turned into `null`. -/
def analyzeJobWithATS (atsCall : JobItem → Except String AtsResponse)
    (job : JobItem) : Option AtsResponse :=
  match atsCall job with
  | Except.ok data => some data
  | Except.error _ => none

/-- One job of a batch: `atsScore` is
`atsAnalysis?.overall_match_percentage ?? null`; the surrounding
`try`/`catch` of the batch map also lands in the `none` branch. -/
def scoreOne (atsCall : JobItem → Except String AtsResponse)
    (job : JobItem) : ScoredJob :=
  match analyzeJobWithATS atsCall job with
  | some ats =>
    { job, atsScore := ats.overall_match_percentage, atsAnalysis := some (mkAtsSummary ats) }
  | none => { job, atsScore := none, atsAnalysis := none }

/-- The batch loop (`for i … i += batchSize` with `batchSize = 3`): each
batch is scored and appended to the accumulated results. -/
def processBatches (atsCall : JobItem → Except String AtsResponse) :
    List JobItem → List ScoredJob
  | [] => []
  | j :: rest =>
    ((j :: rest).take 3).map (scoreOne atsCall) ++
      processBatches atsCall ((j :: rest).drop 3)
termination_by l => l.length
decreasing_by
  simp only [List.length_drop, List.length_cons]
  omega

/-- `a.atsScore || 0` of the final sort comparator. -/
def scoreOfJob (s : ScoredJob) : ℚ := jsOrQ s.atsScore 0

/-- Insertion step of the descending-by-score sort. -/
def insertDesc (x : ScoredJob) : List ScoredJob → List ScoredJob
  | [] => [x]
  | y :: ys => if scoreOfJob y < scoreOfJob x then x :: y :: ys else y :: insertDesc x ys

/-- `task.jobs.sort((a, b) => (b.atsScore || 0) - (a.atsScore || 0))`:
a stable descending sort on `atsScore || 0` (the sort algorithm itself is
unspecified by JS; stability matches modern engines and is irrelevant to the
claims below, which only use that sorting permutes). -/
def sortDesc : List ScoredJob → List ScoredJob
  | [] => []
  | x :: xs => insertDesc x (sortDesc xs)

/-- `task.jobs` holds raw postings on the unscored paths and scored postings
on the analysis path. -/
inductive JobEntry where
  | raw (j : JobItem)
  | scored (s : ScoredJob)
deriving DecidableEq

/-- The zero-result guidance payload (`task.noJobsMessage`). -/
structure NoJobsMsg where
  title : String
  message : String
  suggestions : List String
  wishMessage : String
deriving DecidableEq

/-- A resume entry of `user.resumeDetails` (`resumeData` kept abstract: it is
only forwarded to the external ATS call). -/
structure ResumeRec where
  resumeName : String
  resumeData : Option Unit
deriving DecidableEq

/-- The mutable task record of the in-memory `jobSearchTasks` store. -/
structure TaskState where
  status : String
  statusMessage : Option String
  progress : ℤ
  totalJobs : Nat
  processedJobs : Nat
  jobs : List JobEntry
  completed : Bool
  error : Option String
  noJobsMessage : Option NoJobsMsg
  atsAnalyzed : Option Bool
  cleanupDelayMs : Option Nat
deriving DecidableEq

/-- The task record created by `searchJobs` before the background routine
starts. -/
def initTask : TaskState :=
  { status := "searching", statusMessage := none, progress := 0,
    totalJobs := 0, processedJobs := 0, jobs := [], completed := false,
    error := none, noJobsMessage := none, atsAnalyzed := none,
    cleanupDelayMs := none }

/-- Inputs of one background run, including the outcomes of all external
calls it makes. -/
structure SearchEnv where
  keyword : String
  searchLocation : String
  company : Option String
  searchResult : Except String (List JobItem)
  resumeId : Option String
  foundResume : Option ResumeRec
  userLimitAfter : Option ℚ
  atsCall : JobItem → Except String AtsResponse

/-- The guidance payload built on the zero-jobs path. -/
def mkNoJobsMsg (env : SearchEnv) : NoJobsMsg :=
  let remainingSearches := jsOrQ env.userLimitAfter 0
  { title := "No Job Vacancies Found",
    message :=
      match env.company with
      | some c =>
        "Unfortunately, there are no current openings for \"" ++ env.keyword ++
          "\" at " ++ c ++ " in " ++ env.searchLocation ++ "."
      | none =>
        "Unfortunately, there are no current openings for \"" ++ env.keyword ++
          "\" in " ++ env.searchLocation ++ ".",
    suggestions :=
      ["üîÑ Try a general search instead of company-specific search for better results",
       "üìç Consider expanding your location or trying \"remote\" option",
       "üéØ Use different keywords or job titles",
       "‚ö†Ô∏è Your search limit has been reduced to " ++ numStr remainingSearches ++
         "/3 - avoid unnecessary searches"],
    wishMessage := "Best wishes for your job search! Try again with different criteria." }

/-- `processJobSearch`: the background routine for one task, from the search
call to the terminal task state.  Note that only the full analysis path
schedules the 5-minute cleanup (`cleanupDelayMs`); every other terminal path
returns early, before the `setTimeout`, or lands in the `catch` block. -/
def processJobSearch (env : SearchEnv) (init : TaskState) : TaskState :=
  let task := { init with statusMessage := some "Searching jobs via JSearch API..." }
  match env.searchResult with
  | Except.error e =>
    { task with status := "failed", error := some e, completed := true }
  | Except.ok allJobs =>
    let task := { task with
      totalJobs := allJobs.length
      status := "analyzing"
      statusMessage := some ("Found " ++ toString allJobs.length ++ " jobs") }
    if allJobs.length = 0 then
      { task with
        jobs := []
        processedJobs := 0
        progress := 100
        status := "completed"
        completed := true
        noJobsMessage := some (mkNoJobsMsg env) }
    else if ! strTruthy env.resumeId then
      { task with
        jobs := allJobs.map JobEntry.raw
        processedJobs := allJobs.length
        progress := 100
        status := "completed"
        completed := true
        atsAnalyzed := some false }
    else
      match env.foundResume with
      | some resume =>
        match resume.resumeData with
        | some _ =>
          let jobsToAnalyze := allJobs.take 20
          let analyzed := processBatches env.atsCall jobsToAnalyze
          let sorted := sortDesc analyzed
          { task with
            jobs := sorted.map JobEntry.scored
            processedJobs := analyzed.length
            progress := 100
            status := "completed"
            completed := true
            atsAnalyzed := some true
            cleanupDelayMs := some (5 * 60 * 1000) }
        | none =>
          { task with
            jobs := allJobs.map JobEntry.raw
            processedJobs := allJobs.length
            progress := 100
            status := "completed"
            completed := true
            atsAnalyzed := some false }
      | none =>
        { task with
          jobs := allJobs.map JobEntry.raw
          processedJobs := allJobs.length
          progress := 100
          status := "completed"
          completed := true
          atsAnalyzed := some false }

/-- Outcome of one poll: the store either lacks the id (HTTP 404,
`Task not found or expired` — the distinct not-found signal) or returns a
snapshot. -/
inductive PollOutcome where
  | notFound
  | found (status : String) (completed : Bool) (jobs : List JobEntry) (error : Option String)
deriving DecidableEq

/-- Status mapping of `pollJobSearch`. -/
def clientStatus (t : TaskState) : String :=
  if t.status = "scraping" ∨ t.status = "analyzing" then "searching" else t.status

/-- `pollJobSearch`, as a function of the store content under the polled
task id. -/
def pollJobSearch (store : Option TaskState) : PollOutcome :=
  match store with
  | none => PollOutcome.notFound
  | some t => PollOutcome.found (clientStatus t) t.completed t.jobs t.error

/-! ## Helper lemmas -/

theorem mem_setInsert {x y : String} {l : List String} :
    x ∈ setInsert l y ↔ x ∈ l ∨ x = y := by
  unfold setInsert
  split
  · rename_i h
    rw [show l.contains y = l.elem y from rfl, List.elem_iff] at h
    constructor
    · exact Or.inl
    · rintro (h1 | rfl) <;> [exact h1; exact h]
  · simp [List.mem_append]

theorem contains_iff_mem {x : String} {l : List String} :
    l.contains x = true ↔ x ∈ l := by
  rw [show l.contains x = l.elem x from rfl, List.elem_iff]

/-- Membership in the `matched` component of the match loop. -/
theorem matchLoop_mem_fst (nr : List String) (l : List String) (x : String) :
    ∀ m mi : List String,
      (x ∈ (matchLoop nr l (m, mi)).1 ↔ x ∈ m ∨ (x ∈ l ∧ nr.contains x = true)) := by
  induction l with
  | nil => intro m mi; simp [matchLoop]
  | cons s rest ih =>
    intro m mi
    simp only [matchLoop]
    by_cases h : nr.contains s = true
    · rw [if_pos h, ih, mem_setInsert, List.mem_cons]
      constructor
      · rintro ((hm | rfl) | ⟨hr, hc⟩)
        · exact Or.inl hm
        · exact Or.inr ⟨Or.inl rfl, h⟩
        · exact Or.inr ⟨Or.inr hr, hc⟩
      · rintro (hm | ⟨(rfl | hr), hc⟩)
        · exact Or.inl (Or.inl hm)
        · exact Or.inl (Or.inr rfl)
        · exact Or.inr ⟨hr, hc⟩
    · rw [if_neg h, ih, List.mem_cons]
      constructor
      · rintro (hm | ⟨hr, hc⟩)
        · exact Or.inl hm
        · exact Or.inr ⟨Or.inr hr, hc⟩
      · rintro (hm | ⟨(rfl | hr), hc⟩)
        · exact Or.inl hm
        · exact absurd hc h
        · exact Or.inr ⟨hr, hc⟩

/-- Membership in the `missing` component of the match loop. -/
theorem matchLoop_mem_snd (nr : List String) (l : List String) (x : String) :
    ∀ m mi : List String,
      (x ∈ (matchLoop nr l (m, mi)).2 ↔ x ∈ mi ∨ (x ∈ l ∧ ¬nr.contains x = true)) := by
  induction l with
  | nil => intro m mi; simp [matchLoop]
  | cons s rest ih =>
    intro m mi
    simp only [matchLoop]
    by_cases h : nr.contains s = true
    · rw [if_pos h, ih, List.mem_cons]
      constructor
      · rintro (hm | ⟨hr, hc⟩)
        · exact Or.inl hm
        · exact Or.inr ⟨Or.inr hr, hc⟩
      · rintro (hm | ⟨(rfl | hr), hc⟩)
        · exact Or.inl hm
        · exact absurd h hc
        · exact Or.inr ⟨hr, hc⟩
    · rw [if_neg h, ih, mem_setInsert, List.mem_cons]
      constructor
      · rintro ((hm | rfl) | ⟨hr, hc⟩)
        · exact Or.inl hm
        · exact Or.inr ⟨Or.inl rfl, h⟩
        · exact Or.inr ⟨Or.inr hr, hc⟩
      · rintro (hm | ⟨(rfl | hr), hc⟩)
        · exact Or.inl (Or.inl hm)
        · exact Or.inl (Or.inr rfl)
        · exact Or.inr ⟨hr, hc⟩

/-- The batch loop scores every job of the list, in order. -/
theorem processBatches_eq_map (atsCall : JobItem → Except String AtsResponse)
    (l : List JobItem) : processBatches atsCall l = l.map (scoreOne atsCall) := by
  have key : ∀ (n : Nat) (l : List JobItem), l.length ≤ n →
      processBatches atsCall l = l.map (scoreOne atsCall) := by
    intro n
    induction n with
    | zero =>
      intro l hl
      match l with
      | [] => simp [processBatches]
      | j :: rest => simp at hl
    | succ n ih =>
      intro l hl
      match l with
      | [] => simp [processBatches]
      | j :: rest =>
        rw [processBatches]
        rw [ih ((j :: rest).drop 3)
          (by simp only [List.length_drop, List.length_cons] at *; omega)]
        rw [← List.map_append, List.take_append_drop]
  exact key l.length l (le_refl _)

theorem insertDesc_perm (x : ScoredJob) (l : List ScoredJob) :
    (insertDesc x l).Perm (x :: l) := by
  induction l with
  | nil => simp [insertDesc]
  | cons y ys ih =>
    simp only [insertDesc]
    split
    · exact List.Perm.refl _
    · exact List.Perm.trans (List.Perm.cons y ih) (List.Perm.swap x y ys)

theorem sortDesc_perm (l : List ScoredJob) : (sortDesc l).Perm l := by
  induction l with
  | nil => simp [sortDesc]
  | cons x xs ih =>
    exact List.Perm.trans (insertDesc_perm x (sortDesc xs)) (List.Perm.cons x ih)

theorem round2_nonneg {q : ℚ} (h : 0 ≤ q) : 0 ≤ round2 q := by
  unfold round2 jsRound
  have h1 : (0 : ℤ) ≤ ⌊q * 100 + 1/2⌋ := Int.floor_nonneg.mpr (by linarith)
  have h2 : (0 : ℚ) ≤ (⌊q * 100 + 1/2⌋ : ℚ) := by exact_mod_cast h1
  positivity

theorem round2_le_100 {q : ℚ} (h : q ≤ 100) : round2 q ≤ 100 := by
  unfold round2 jsRound
  have h1 : ⌊q * 100 + 1/2⌋ ≤ 10000 := by
    have hle : q * 100 + 1/2 ≤ 10000 + 1/2 := by linarith
    have := Int.floor_le_floor hle
    have heq : ⌊(10000 : ℚ) + 1/2⌋ = 10000 := by
      rw [Int.floor_eq_iff]
      norm_num
    omega
  rw [div_le_iff₀ (by norm_num : (0 : ℚ) < 100)]
  have : ((⌊q * 100 + 1/2⌋ : ℤ) : ℚ) ≤ (10000 : ℚ) := by exact_mod_cast h1
  linarith

/-! ## Claims -/

/-- C1, counterexample.  As stated, the partition property is false for an
empty resume-skill list: `matchSkills([], ["js"], [])` puts the raw string
`"js"` into `missingRequired` (the guard branch uses `new Set(jobSkills)`
without normalization), so the union of the two sets is `{"js"}` while
`normalize(["js"])` is the synonym-expanded
`{javascript, js, ecmascript, node.js, nodejs}` — e.g. `"javascript"` is in
the normalized set but in neither output set. -/
theorem matchSkills_empty_resume_breaks_partition :
    (matchSkills [] ["js"] []).matchedRequired = [] ∧
    (matchSkills [] ["js"] []).missingRequired = ["js"] ∧
    normalizeSkills ["js"] = ["javascript", "js", "ecmascript", "node.js", "nodejs"] ∧
    ¬(("javascript" ∈ (matchSkills [] ["js"] []).matchedRequired ∨
       "javascript" ∈ (matchSkills [] ["js"] []).missingRequired) ↔
      "javascript" ∈ normalizeSkills ["js"]) := by
  refine ⟨rfl, rfl, by decide, ?_⟩
  intro h
  have := h.mpr (by decide)
  revert this
  decide

/-- C1, amended: for every NONEMPTY resume skill list `S` and nonempty
required list `R`, `matchSkills(S, R, [])` partitions `normalize(R)`:
`matchedRequired` and `missingRequired` are disjoint and their union is
exactly `normalizeSkills R`.  When `S` is empty (or absent), the guard
branch returns `matchedRequired = ∅` and `missingRequired =` the
deduplicated RAW `R` instead. -/
theorem matchSkills_partitions_normalized_required :
    (∀ S R : List String, S ≠ [] → R ≠ [] →
      (∀ x, x ∈ (matchSkills S R []).matchedRequired →
        x ∉ (matchSkills S R []).missingRequired) ∧
      (∀ x, (x ∈ (matchSkills S R []).matchedRequired ∨
          x ∈ (matchSkills S R []).missingRequired) ↔ x ∈ normalizeSkills R)) ∧
    (∀ R : List String, (matchSkills [] R []).matchedRequired = [] ∧
      (matchSkills [] R []).missingRequired = setOfList R) := by
  constructor
  · intro S R hS hR
    obtain ⟨s, S', rfl⟩ : ∃ s S', S = s :: S' := by
      cases S with
      | nil => exact absurd rfl hS
      | cons a as => exact ⟨a, as, rfl⟩
    obtain ⟨r, R', rfl⟩ : ∃ r R', R = r :: R' := by
      cases R with
      | nil => exact absurd rfl hR
      | cons a as => exact ⟨a, as, rfl⟩
    have e1 : (matchSkills (s :: S') (r :: R') []).matchedRequired =
        (matchLoop (normalizeSkills (s :: S')) (normalizeSkills (r :: R')) ([], [])).1 := by
      simp [matchSkills, matchSkillsWithSynonyms]
    have e2 : (matchSkills (s :: S') (r :: R') []).missingRequired =
        (matchLoop (normalizeSkills (s :: S')) (normalizeSkills (r :: R')) ([], [])).2 := by
      simp [matchSkills, matchSkillsWithSynonyms]
    constructor
    · intro x hx1 hx2
      rw [e1, matchLoop_mem_fst] at hx1
      rw [e2, matchLoop_mem_snd] at hx2
      rcases hx1 with h1 | ⟨_, hc⟩
      · exact absurd h1 (List.not_mem_nil x)
      · rcases hx2 with h2 | ⟨_, hnc⟩
        · exact absurd h2 (List.not_mem_nil x)
        · exact hnc hc
    · intro x
      rw [e1, e2, matchLoop_mem_fst, matchLoop_mem_snd]
      constructor
      · rintro ((h | ⟨hj, _⟩) | (h | ⟨hj, _⟩))
        · exact absurd h (List.not_mem_nil x)
        · exact hj
        · exact absurd h (List.not_mem_nil x)
        · exact hj
      · intro hj
        by_cases hc : (normalizeSkills (s :: S')).contains x = true
        · exact Or.inl (Or.inr ⟨hj, hc⟩)
        · exact Or.inr (Or.inr ⟨hj, hc⟩)
  · intro R
    exact ⟨rfl, rfl⟩

/-- C1, witness for the amended theorem at `S = ["python"]`,
`R = ["express"]`. -/
theorem matchSkills_partitions_normalized_required_witness :
    ("express" ∈ (matchSkills ["python"] ["express"] []).matchedRequired ∨
      "express" ∈ (matchSkills ["python"] ["express"] []).missingRequired) ↔
    "express" ∈ normalizeSkills ["express"] :=
  ((matchSkills_partitions_normalized_required.1 ["python"] ["express"]
    (by decide) (by decide)).2) "express"

/-- Evaluation of the match percentage for the C2 scenario: the matcher
compares the synonym-EXPANDED job set (8 entries: javascript, js,
ecmascript, node.js, nodejs, express, expressjs, express.js) against the
expanded resume set, so 5 of 8 entries match. -/
theorem c2_scenario_matchPct :
    (matchSkillsWithSynonyms ["javascript", "node"] ["js", "express"]).matchPct = 5/8 := by
  have e : (matchSkillsWithSynonyms ["javascript", "node"] ["js", "express"]).matchPct =
      (if 0 < (normalizeSkills ["js", "express"]).length then
        ((matchLoop (normalizeSkills ["javascript", "node"])
          (normalizeSkills ["js", "express"]) ([], [])).1.length : ℚ) /
          ((normalizeSkills ["js", "express"]).length : ℚ)
      else 0) := rfl
  have l1 : (matchLoop (normalizeSkills ["javascript", "node"])
      (normalizeSkills ["js", "express"]) ([], [])).1.length = 5 := by decide
  have l2 : (normalizeSkills ["js", "express"]).length = 8 := by decide
  rw [e, l1, l2]
  norm_num

/-- C2, counterexample.  For resume skills `["javascript","node"]` and job
required skills `["js","express"]`, `requiredMatchPercentage` is `62.5`
(5 matches out of the 8 synonym-expanded required entries), not the claimed
`50`. -/
theorem c2_scenario_percentage_not_50 :
    (matchSkills ["javascript", "node"] ["js", "express"] []).requiredMatchPercentage ≠ 50 := by
  have e : (matchSkills ["javascript", "node"] ["js", "express"] []).requiredMatchPercentage =
      round2 ((matchSkillsWithSynonyms ["javascript", "node"] ["js", "express"]).matchPct * 100) := rfl
  rw [e, c2_scenario_matchPct]
  unfold round2 jsRound
  have hf : ⌊(5/8 * 100 * 100 : ℚ) + 1/2⌋ = 6250 := by
    rw [Int.floor_eq_iff]
    norm_num
  rw [hf]
  norm_num

/-- C2, amended.  In the scenario resume `["javascript","node"]` versus job
required `["js","express"]` (no preferred skills), matching happens on the
synonym-expanded sets: `matchedRequired` is
`[javascript, js, ecmascript, node.js, nodejs]`, `missingRequired` is
`[express, expressjs, express.js]`, and `requiredMatchPercentage = 62.5`. -/
theorem c2_scenario_actual_values :
    (matchSkills ["javascript", "node"] ["js", "express"] []).matchedRequired =
      ["javascript", "js", "ecmascript", "node.js", "nodejs"] ∧
    (matchSkills ["javascript", "node"] ["js", "express"] []).missingRequired =
      ["express", "expressjs", "express.js"] ∧
    (matchSkills ["javascript", "node"] ["js", "express"] []).requiredMatchPercentage = 62.5 := by
  refine ⟨by decide, by decide, ?_⟩
  have e : (matchSkills ["javascript", "node"] ["js", "express"] []).requiredMatchPercentage =
      round2 ((matchSkillsWithSynonyms ["javascript", "node"] ["js", "express"]).matchPct * 100) := rfl
  rw [e, c2_scenario_matchPct]
  unfold round2 jsRound
  have hf : ⌊(5/8 * 100 * 100 : ℚ) + 1/2⌋ = 6250 := by
    rw [Int.floor_eq_iff]
    norm_num
  rw [hf]
  norm_num

/-- C3: the experience hard filter (`_checkExperience`) passes
unconditionally when the job minimum is at most 1 year, and otherwise passes
exactly when the resume experience is at least `0.8 ×` the minimum; in
particular a 10-year requirement fails a 5-year resume (5 < 8). -/
theorem checkExperience_characterization :
    (∀ resumeExperience minRequired : ℚ,
      checkExperience resumeExperience minRequired = true ↔
        (minRequired ≤ 1 ∨ 0.8 * minRequired ≤ resumeExperience)) ∧
    checkExperience 5 10 = false := by
  constructor
  · intro re mr
    simp only [checkExperience, MIN_EXPERIENCE_MATCH_RATIO]
    by_cases h1 : mr ≤ 1
    · simp [h1]
    · rw [if_neg h1]
      by_cases h2 : re < mr * 0.8
      · rw [if_pos h2]
        simp only [Bool.false_eq_true, false_iff, not_or]
        exact ⟨h1, by intro h3; nlinarith⟩
      · rw [if_neg h2]
        simp only [true_iff]
        exact Or.inr (by nlinarith [not_lt.mp h2])
  · simp only [checkExperience, MIN_EXPERIENCE_MATCH_RATIO]
    rw [if_neg (by norm_num), if_pos (by norm_num)]

/-- A weight set with the claimed sum `1.0` but a negative component
(`analyze` accepts arbitrary `customWeights`, so such sets reach the
weighted-total computation). -/
def badWeights : Weights :=
  { skills := 2, experience := -1, projects := 0, keywords := 0,
    summary := 0, education := 0 }

/-- C4, counterexample.  The six weights of `badWeights` sum to `1.0` and
all six sub-scores `100, 0, 0, 0, 0, 0` lie in `[0,100]`, yet the weighted
total is `200 ∉ [0,100]`: the claim fails for weight sets that sum to 1 but
contain a negative weight. -/
theorem weightedTotal_out_of_range_for_signed_weights :
    badWeights.skills + badWeights.experience + badWeights.projects +
      badWeights.keywords + badWeights.summary + badWeights.education = 1 ∧
    ((0:ℚ) ≤ 100 ∧ (100:ℚ) ≤ 100) ∧ ((0:ℚ) ≤ 0 ∧ (0:ℚ) ≤ 100) ∧
    weightedTotalOf badWeights 100 0 0 0 0 0 = 200 ∧
    ¬(weightedTotalOf badWeights 100 0 0 0 0 0 ≤ 100) := by
  have hv : weightedTotalOf badWeights 100 0 0 0 0 0 = 200 := by
    unfold weightedTotalOf round2 jsRound badWeights
    have hf : ⌊((100 * 2 + 0 * (-1) + 0 * 0 + 0 * 0 + 0 * 0 + 0 * 0 : ℚ)) * 100 + 1/2⌋ = 20000 := by
      rw [Int.floor_eq_iff]
      norm_num
    rw [show ((100:ℚ) * (2:ℚ) + 0 * (-1) + 0 * 0 + 0 * 0 + 0 * 0 + 0 * 0) = 200 by norm_num]
    have hf2 : ⌊((200:ℚ)) * 100 + 1/2⌋ = 20000 := by
      rw [Int.floor_eq_iff]
      norm_num
    rw [hf2]
    norm_num
  refine ⟨by norm_num [badWeights], ⟨by norm_num, by norm_num⟩,
    ⟨by norm_num, by norm_num⟩, hv, ?_⟩
  rw [hv]
  norm_num

/-- C4, amended: for every weight set with NONNEGATIVE weights summing to
`1.0` and six sub-scores in `[0,100]`, the rounded weighted total lies in
`[0,100]`.  (All role-based weight tables of the configuration are
nonnegative; the unrestricted claim fails only through `customWeights`.) -/
theorem weightedTotal_in_range (w : Weights) (s1 s2 s3 s4 s5 s6 : ℚ)
    (hw1 : 0 ≤ w.skills) (hw2 : 0 ≤ w.experience) (hw3 : 0 ≤ w.projects)
    (hw4 : 0 ≤ w.keywords) (hw5 : 0 ≤ w.summary) (hw6 : 0 ≤ w.education)
    (hsum : w.skills + w.experience + w.projects + w.keywords + w.summary + w.education = 1)
    (h1 : 0 ≤ s1 ∧ s1 ≤ 100) (h2 : 0 ≤ s2 ∧ s2 ≤ 100) (h3 : 0 ≤ s3 ∧ s3 ≤ 100)
    (h4 : 0 ≤ s4 ∧ s4 ≤ 100) (h5 : 0 ≤ s5 ∧ s5 ≤ 100) (h6 : 0 ≤ s6 ∧ s6 ≤ 100) :
    0 ≤ weightedTotalOf w s1 s2 s3 s4 s5 s6 ∧
      weightedTotalOf w s1 s2 s3 s4 s5 s6 ≤ 100 := by
  have hx0 : 0 ≤ s1 * w.skills + s2 * w.experience + s3 * w.projects +
      s4 * w.keywords + s5 * w.summary + s6 * w.education := by
    have := mul_nonneg h1.1 hw1
    have := mul_nonneg h2.1 hw2
    have := mul_nonneg h3.1 hw3
    have := mul_nonneg h4.1 hw4
    have := mul_nonneg h5.1 hw5
    have := mul_nonneg h6.1 hw6
    linarith
  have hx1 : s1 * w.skills + s2 * w.experience + s3 * w.projects +
      s4 * w.keywords + s5 * w.summary + s6 * w.education ≤ 100 := by
    have b1 := mul_le_mul_of_nonneg_right h1.2 hw1
    have b2 := mul_le_mul_of_nonneg_right h2.2 hw2
    have b3 := mul_le_mul_of_nonneg_right h3.2 hw3
    have b4 := mul_le_mul_of_nonneg_right h4.2 hw4
    have b5 := mul_le_mul_of_nonneg_right h5.2 hw5
    have b6 := mul_le_mul_of_nonneg_right h6.2 hw6
    nlinarith [hsum]
  unfold weightedTotalOf
  exact ⟨round2_nonneg hx0, round2_le_100 hx1⟩

/-- C4, witness for the amended theorem: the default role weights with
concrete in-range sub-scores. -/
theorem weightedTotal_in_range_witness :
    0 ≤ weightedTotalOf DEFAULT 100 90 80 70 60 50 ∧
      weightedTotalOf DEFAULT 100 90 80 70 60 50 ≤ 100 :=
  weightedTotal_in_range DEFAULT 100 90 80 70 60 50
    (by norm_num [DEFAULT]) (by norm_num [DEFAULT]) (by norm_num [DEFAULT])
    (by norm_num [DEFAULT]) (by norm_num [DEFAULT]) (by norm_num [DEFAULT])
    (by norm_num [DEFAULT])
    (by norm_num) (by norm_num) (by norm_num) (by norm_num) (by norm_num) (by norm_num)

/-- C5: whenever Stage 1 (hard filters) fails, `analyze` returns
`relevanceScore = none` and `overallMatchPercentage = 0`, still computes the
full `SkillAnalysis` from the same resume/job skill lists, and the feedback
is the hard-filter failure-reason list joined into one message. -/
theorem analyze_hard_filter_failure (resume : Resume) (job : Job)
    (w : Option Weights) (now : String)
    (h : (analyze resume job w now).hardFilters.passed = false) :
    (analyze resume job w now).relevanceScore = none ∧
    (analyze resume job w now).overallMatchPercentage = 0 ∧
    (analyze resume job w now).skillAnalysis =
      matchSkills (resume.skills.getD []) (job.requiredSkills.getD [])
        (job.preferredSkills.getD []) ∧
    (analyze resume job w now).feedback =
      "Resume did not pass initial screening. Issues: " ++
        String.intercalate ", " (analyze resume job w now).hardFilters.failureReasons := by
  have hh : (analyze resume job w now).hardFilters = evaluateHardFilters resume job := rfl
  rw [hh] at h
  have e1 : (analyze resume job w now).relevanceScore =
      (if (evaluateHardFilters resume job).passed then
        some (calculateRelevanceScore resume job w) else none) := rfl
  have e2 : (analyze resume job w now).overallMatchPercentage =
      round2 (match (if (evaluateHardFilters resume job).passed then
          some (calculateRelevanceScore resume job w) else none) with
        | some rs => rs.weightedTotal
        | none => 0) := rfl
  have e3 : (analyze resume job w now).skillAnalysis =
      matchSkills (resume.skills.getD []) (job.requiredSkills.getD [])
        (job.preferredSkills.getD []) := rfl
  have e4 : (analyze resume job w now).feedback =
      generateFeedback (evaluateHardFilters resume job)
        (if (evaluateHardFilters resume job).passed then
          some (calculateRelevanceScore resume job w) else none)
        (matchSkills (resume.skills.getD []) (job.requiredSkills.getD [])
          (job.preferredSkills.getD [])) := rfl
  refine ⟨?_, ?_, e3, ?_⟩
  · rw [e1, h]
    rfl
  · rw [e2, h]
    show round2 0 = 0
    unfold round2 jsRound
    have hf : ⌊(0 : ℚ) * 100 + 1/2⌋ = 0 := by
      rw [Int.floor_eq_iff]
      norm_num
    rw [hf]
    norm_num
  · rw [e4, hh]
    simp [generateFeedback, h]

/-- Resume of the C5 witness: 5 years of experience, nothing else. -/
def resumeC5 : Resume := { yearsOfExperience := some 5 }

/-- Job of the C5 witness: requires a minimum of 10 years. -/
def jobC5 : Job := { minExperience := some 10 }

/-- C5, witness: the 5-year resume against the 10-year job fails the
experience hard filter, and `analyze` behaves as the theorem states. -/
theorem analyze_hard_filter_failure_witness :
    (analyze resumeC5 jobC5 none "2026-01-01T00:00:00.000Z").relevanceScore = none ∧
    (analyze resumeC5 jobC5 none "2026-01-01T00:00:00.000Z").overallMatchPercentage = 0 ∧
    (analyze resumeC5 jobC5 none "2026-01-01T00:00:00.000Z").skillAnalysis =
      matchSkills (resumeC5.skills.getD []) (jobC5.requiredSkills.getD [])
        (jobC5.preferredSkills.getD []) ∧
    (analyze resumeC5 jobC5 none "2026-01-01T00:00:00.000Z").feedback =
      "Resume did not pass initial screening. Issues: " ++
        String.intercalate ", "
          (analyze resumeC5 jobC5 none "2026-01-01T00:00:00.000Z").hardFilters.failureReasons := by
  have hwa : checkWorkAuthorization resumeC5.workAuthorization (descText jobC5) = true := by
    decide
  have hex : checkExperience (jsOrQ resumeC5.yearsOfExperience 0)
      (jsOrQ jobC5.minExperience 0) jobC5.maxExperience = false := by
    show checkExperience (jsOrQ (some 5) 0) (jsOrQ (some 10) 0) none = false
    have h5 : jsOrQ (some (5:ℚ)) 0 = 5 := by norm_num [jsOrQ]
    have h10 : jsOrQ (some (10:ℚ)) 0 = 10 := by norm_num [jsOrQ]
    rw [h5, h10]
    simp only [checkExperience, MIN_EXPERIENCE_MATCH_RATIO]
    rw [if_neg (by norm_num), if_pos (by norm_num)]
  have hed : checkEducation resumeC5.highestDegree (resumeC5.education.getD [])
      jobC5.requiredEducation = true := by decide
  have hpass : (analyze resumeC5 jobC5 none "2026-01-01T00:00:00.000Z").hardFilters.passed = false := by
    show (evaluateHardFilters resumeC5 jobC5).passed = false
    simp [evaluateHardFilters, hwa, hex, hed]
  exact analyze_hard_filter_failure resumeC5 jobC5 none "2026-01-01T00:00:00.000Z" hpass

/-- Resume of the C6 counterexample: a present but EMPTY education list and
no highest degree. -/
def resumeC6 : Resume := { education := some [] }

/-- Job of the C6 counterexample: requires a bachelor degree. -/
def jobC6 : Job := { requiredEducation := some "bachelor" }

/-- C6, counterexample.  This candidate has no education entries (the list is
empty) and no highest degree, and the job has a required-education text, so
the claim demands an education score of `0`; the code returns `50`, because
its zero branch tests for an ABSENT education field (JS `!resume.education`),
which an empty array does not satisfy, and the Stage-1 check then fails. -/
theorem scoreEducation_empty_list_no_degree_scores_50 :
    resumeC6.education.getD [] = [] ∧
    resumeC6.highestDegree = none ∧
    strTruthy jobC6.requiredEducation = true ∧
    scoreEducation resumeC6 jobC6 = 50 := by
  refine ⟨rfl, rfl, by decide, ?_⟩
  have hchk : checkEducation none [] (some "bachelor") = false := by decide
  simp [scoreEducation, resumeC6, jobC6, hchk, strTruthy]

/-- C6, amended: the education sub-score is `100` when the job has no
(truthy) required-education text; `0` when the resume's `education` FIELD is
absent and there is no truthy highest degree; otherwise `100` exactly when
the Stage-1 education check (`_checkEducation`, on the same inputs) passes,
and `50` when it fails.  (A present-but-empty education list with no degree
falls into the last two branches, not the zero branch.) -/
theorem scoreEducation_characterization (r : Resume) (j : Job) :
    (strTruthy j.requiredEducation = false → scoreEducation r j = 100) ∧
    (strTruthy j.requiredEducation = true → r.education = none →
      strTruthy r.highestDegree = false → scoreEducation r j = 0) ∧
    (strTruthy j.requiredEducation = true →
      (r.education ≠ none ∨ strTruthy r.highestDegree = true) →
      checkEducation r.highestDegree (r.education.getD []) j.requiredEducation = true →
      scoreEducation r j = 100) ∧
    (strTruthy j.requiredEducation = true →
      (r.education ≠ none ∨ strTruthy r.highestDegree = true) →
      checkEducation r.highestDegree (r.education.getD []) j.requiredEducation = false →
      scoreEducation r j = 50) := by
  refine ⟨?_, ?_, ?_, ?_⟩
  · intro h1
    simp [scoreEducation, h1]
  · intro h1 h2 h3
    simp [scoreEducation, h1, h2, h3]
  · intro h1 h2 h3
    have hcond : (r.education.isNone && ! strTruthy r.highestDegree) = false := by
      rcases h2 with h2 | h2
      · have : r.education.isNone = false := by
          cases he : r.education with
          | none => exact absurd he h2
          | some l => rfl
        simp [this]
      · simp [h2]
    simp [scoreEducation, h1, hcond, h3]
  · intro h1 h2 h3
    have hcond : (r.education.isNone && ! strTruthy r.highestDegree) = false := by
      rcases h2 with h2 | h2
      · have : r.education.isNone = false := by
          cases he : r.education with
          | none => exact absurd he h2
          | some l => rfl
        simp [this]
      · simp [h2]
    simp [scoreEducation, h1, hcond, h3]

/-- Resume of the C6 witness: a B.Tech as highest degree. -/
def resumeC6w : Resume := { highestDegree := some "B.Tech in Computer Science" }

/-- C6, witness for the amended theorem: a bachelor-requiring job against a
B.Tech holder takes the Stage-1-check-passes branch and scores 100. -/
theorem scoreEducation_characterization_witness :
    scoreEducation resumeC6w jobC6 = 100 :=
  (scoreEducation_characterization resumeC6w jobC6).2.2.1 (by decide)
    (Or.inr (by decide)) (by decide)

/-- C7: `quickScore` returns
`score = round2(0.6·overallSkillScore + 0.4·keywordOverlap(resume text, job
description))`, where the job skill list is the structured list when present
and otherwise comes from the Skill Matcher's free-text extraction over the
job description; and it applies no hard filters — the result depends only on
the resume's skills/work-experience/summary and the job's skill list and
description fields, not on experience, work authorization or education. -/
theorem quickScore_characterization :
    (∀ (resume : Resume) (job : Job),
      (quickScore resume job).score =
        round2 ((matchSkills (resume.skills.getD [])
            (match job.requiredSkills with
             | some l => l
             | none => extractSkillsFromText (descText job)) []).overallSkillScore * 0.6 +
          calculateKeywordOverlap
            (joinSp [joinSp (resume.skills.getD []),
              joinSp (resume.workExperience.getD []), jsOrStr resume.summary ""])
            (descText job) * 0.4)) ∧
    (∀ (r1 r2 : Resume) (j1 j2 : Job),
      r1.skills = r2.skills → r1.workExperience = r2.workExperience →
      r1.summary = r2.summary → j1.requiredSkills = j2.requiredSkills →
      j1.description = j2.description → j1.jobDescription = j2.jobDescription →
      quickScore r1 j1 = quickScore r2 j2) := by
  constructor
  · intro resume job
    rfl
  · intro r1 r2 j1 j2 h1 h2 h3 h4 h5 h6
    cases r1
    cases r2
    cases j1
    cases j2
    simp only [] at h1 h2 h3 h4 h5 h6
    subst h1
    subst h2
    subst h3
    subst h4
    subst h5
    subst h6
    rfl

/-- Resume of the C7 witness (no filter-relevant fields). -/
def resumeC7a : Resume := { skills := some ["python"] }

/-- Same scoring-relevant fields as `resumeC7a`, but 3 years of experience,
a degree, an education list and a work authorization added. -/
def resumeC7b : Resume :=
  { skills := some ["python"], yearsOfExperience := some 3,
    highestDegree := some "MSc", education := some [EduEntry.str "MSc"],
    workAuthorization := some "citizen" }

/-- Job of the C7 witness; `j2` adds hard-filter fields. -/
def jobC7a : Job := { requiredSkills := some ["python"], description := some "python role" }

/-- Same skill list and description, plus experience/education demands. -/
def jobC7b : Job :=
  { requiredSkills := some ["python"], description := some "python role",
    minExperience := some 10, requiredEducation := some "phd" }

/-- C7, witness: changing only hard-filter-relevant fields leaves
`quickScore` unchanged. -/
theorem quickScore_characterization_witness :
    quickScore resumeC7a jobC7a = quickScore resumeC7b jobC7b :=
  quickScore_characterization.2 resumeC7a resumeC7b jobC7a jobC7b
    rfl rfl rfl rfl rfl rfl

/-- C8: on the analysis path (search succeeded with a nonempty job list,
resume id given and resume found), the task always completes; every job of
the analyzed run (the first 20) appears in the final results, scored by
`scoreOne`; a job whose external scoring call fails is recorded with
`atsScore = none` while a successful call records its returned percentage —
so one job's failure never aborts the batch or costs another job its
score. -/
theorem processJobSearch_isolates_per_job_failures
    (env : SearchEnv) (init : TaskState) (jobs : List JobItem)
    (hs : env.searchResult = Except.ok jobs) (hne : jobs ≠ [])
    (hrid : strTruthy env.resumeId = true)
    (rec : ResumeRec) (hfr : env.foundResume = some rec)
    (hrd : rec.resumeData = some ()) :
    (processJobSearch env init).completed = true ∧
    (processJobSearch env init).status = "completed" ∧
    (processJobSearch env init).jobs.length = (jobs.take 20).length ∧
    (∀ j ∈ jobs.take 20,
      JobEntry.scored (scoreOne env.atsCall j) ∈ (processJobSearch env init).jobs) ∧
    (∀ j e, env.atsCall j = Except.error e →
      (scoreOne env.atsCall j).atsScore = none ∧ (scoreOne env.atsCall j).job = j) ∧
    (∀ j resp, env.atsCall j = Except.ok resp →
      (scoreOne env.atsCall j).atsScore = resp.overall_match_percentage ∧
      (scoreOne env.atsCall j).job = j) := by
  have hlen : ¬jobs.length = 0 := by
    cases jobs with
    | nil => exact absurd rfl hne
    | cons a as => simp
  have hjobs : (processJobSearch env init).jobs =
      (sortDesc (processBatches env.atsCall (jobs.take 20))).map JobEntry.scored := by
    unfold processJobSearch
    rw [hs]
    simp only [hrid, Bool.not_true, hfr, hrd]
    rw [if_neg hlen]
    rfl
  have hcompl : (processJobSearch env init).completed = true := by
    unfold processJobSearch
    rw [hs]
    simp only [hrid, Bool.not_true, hfr, hrd]
    rw [if_neg hlen]
    rfl
  have hstat : (processJobSearch env init).status = "completed" := by
    unfold processJobSearch
    rw [hs]
    simp only [hrid, Bool.not_true, hfr, hrd]
    rw [if_neg hlen]
    rfl
  have hperm := sortDesc_perm (processBatches env.atsCall (jobs.take 20))
  refine ⟨hcompl, hstat, ?_, ?_, ?_, ?_⟩
  · rw [hjobs, List.length_map, hperm.length_eq, processBatches_eq_map,
      List.length_map]
  · intro j hj
    rw [hjobs]
    apply List.mem_map_of_mem
    apply hperm.mem_iff.mpr
    rw [processBatches_eq_map]
    exact List.mem_map_of_mem _ hj
  · intro j e hcall
    constructor <;> simp [scoreOne, analyzeJobWithATS, hcall]
  · intro j resp hcall
    constructor <;> simp [scoreOne, analyzeJobWithATS, hcall]

/-- First job of the C8 witness (its scoring call will fail). -/
def jobC8a : JobItem := { title := some "Backend Engineer" }

/-- Second job of the C8 witness (its scoring call succeeds with 75%). -/
def jobC8b : JobItem := { title := some "Data Engineer" }

/-- Environment of the C8 witness: two jobs; the ATS call fails on the
first and returns 75% for the second. -/
def envC8 : SearchEnv :=
  { keyword := "engineer", searchLocation := "India", company := none,
    searchResult := Except.ok [jobC8a, jobC8b],
    resumeId := some "resume-1",
    foundResume := some { resumeName := "cv", resumeData := some () },
    userLimitAfter := some 2,
    atsCall := fun j =>
      if j = jobC8a then Except.error "ECONNREFUSED"
      else Except.ok { overall_match_percentage := some 75 } }

/-- C8, witness: with the failing first job, the task still completes and
both jobs appear in the results — the failed one with a null score, the
other with its 75% score. -/
theorem processJobSearch_isolates_per_job_failures_witness :
    (processJobSearch envC8 initTask).completed = true ∧
    JobEntry.scored (scoreOne envC8.atsCall jobC8a) ∈ (processJobSearch envC8 initTask).jobs ∧
    (scoreOne envC8.atsCall jobC8a).atsScore = none ∧
    JobEntry.scored (scoreOne envC8.atsCall jobC8b) ∈ (processJobSearch envC8 initTask).jobs ∧
    (scoreOne envC8.atsCall jobC8b).atsScore = some 75 := by
  have h := processJobSearch_isolates_per_job_failures envC8 initTask [jobC8a, jobC8b]
    rfl (by decide) (by decide) { resumeName := "cv", resumeData := some () } rfl rfl
  refine ⟨h.1, h.2.2.2.1 jobC8a (by decide), ?_, h.2.2.2.1 jobC8b (by decide), ?_⟩
  · exact (h.2.2.2.2.1 jobC8a "ECONNREFUSED" rfl).1
  · exact (h.2.2.2.2.2 jobC8b { overall_match_percentage := some 75 } rfl).1

/-- Environment of the C9 evidence, zero-result path: the provider returns
an empty job list. -/
def envC9zero : SearchEnv :=
  { keyword := "architect", searchLocation := "Atlantis", company := none,
    searchResult := Except.ok [], resumeId := some "resume-1",
    foundResume := none, userLimitAfter := some 2,
    atsCall := fun _ => Except.error "unused" }

/-- Environment of the C9 evidence, failure path: the provider call throws
(e.g. a rate-limit error). -/
def envC9fail : SearchEnv :=
  { keyword := "architect", searchLocation := "India", company := none,
    searchResult := Except.error "Rate limit exceeded", resumeId := none,
    foundResume := none, userLimitAfter := none,
    atsCall := fun _ => Except.error "unused" }

/-- C9: the 5-minute purge (`setTimeout(…, 5*60*1000)`) is scheduled only at
the end of the full analysis path.  A task that terminates through the
zero-result path reaches `completed`, and a task whose search throws reaches
`failed` — in BOTH cases with no cleanup scheduled (`cleanupDelayMs = none`),
so those terminal tasks stay in the in-memory store forever and a poll after
the retention window still finds them instead of producing the distinct
not-found signal (which `pollJobSearch` does emit for a deleted id). -/
theorem terminal_tasks_not_always_purged :
    ((processJobSearch envC9zero initTask).completed = true ∧
      (processJobSearch envC9zero initTask).status = "completed" ∧
      (processJobSearch envC9zero initTask).cleanupDelayMs = none ∧
      pollJobSearch (some (processJobSearch envC9zero initTask)) ≠ PollOutcome.notFound) ∧
    ((processJobSearch envC9fail initTask).completed = true ∧
      (processJobSearch envC9fail initTask).status = "failed" ∧
      (processJobSearch envC9fail initTask).cleanupDelayMs = none) ∧
    pollJobSearch none = PollOutcome.notFound := by
  refine ⟨⟨rfl, rfl, rfl, ?_⟩, ⟨rfl, rfl, rfl⟩, rfl⟩
  simp [pollJobSearch]

/-- C10: `analyze` is deterministic — two runs on the same resume, job and
weights agree on every field (hard filters, relevance score, overall match,
skill sets, skill analysis, feedback, recommendations, role type); only the
injected timestamp differs, and it is copied verbatim into
`analysisTimestamp`. -/
theorem analyze_deterministic_up_to_timestamp
    (resume : Resume) (job : Job) (w : Option Weights) (t1 t2 : String) :
    eraseTimestamp (analyze resume job w t1) = eraseTimestamp (analyze resume job w t2) ∧
    (analyze resume job w t1).hardFilters = (analyze resume job w t2).hardFilters ∧
    (analyze resume job w t1).relevanceScore = (analyze resume job w t2).relevanceScore ∧
    (analyze resume job w t1).overallMatchPercentage =
      (analyze resume job w t2).overallMatchPercentage ∧
    (analyze resume job w t1).matchedSkills = (analyze resume job w t2).matchedSkills ∧
    (analyze resume job w t1).missingSkills = (analyze resume job w t2).missingSkills ∧
    (analyze resume job w t1).skillAnalysis = (analyze resume job w t2).skillAnalysis ∧
    (analyze resume job w t1).feedback = (analyze resume job w t2).feedback ∧
    (analyze resume job w t1).recommendations = (analyze resume job w t2).recommendations ∧
    (analyze resume job w t1).roleType = (analyze resume job w t2).roleType ∧
    (analyze resume job w t1).analysisTimestamp = t1 :=
  ⟨rfl, rfl, rfl, rfl, rfl, rfl, rfl, rfl, rfl, rfl, rfl⟩
